import Mathlib

/-!
Verification development for the chechekule periodic HTTP health-probe.

The definitions below are a shallow embedding of the Go sources
(src/main.go, src/config.go).  External library behaviour that the
program calls into is embedded at its interface:

* the regular-expression engine (Go package regexp) is a parameter: a
  compile function that either fails (malformed pattern) or yields a
  matcher, since validateResponse only ever calls Compile, MatchString
  and Match;
* the YAML decoder (gopkg.in/yaml.v3) is embedded as a field-presence
  overlay: a field present in the document overwrites the pre-set
  default, an absent field keeps it, which is exactly how
  yaml.Unmarshal behaves on a pre-populated struct of scalars and
  nested structs;
* the net/http client redirect loop and the cookie jar are embedded
  from their documented, deterministic behaviour on the inputs this
  program constructs (a GET request chain, cookies bearing only
  Name/Value set on a single origin).

Machine integers (Go int, time.Duration) are modelled as Int; durations
are in nanoseconds as in Go.
-/

namespace Chechekule

/-! ### Go string primitives (package strings, bufio.ScanLines) -/

/-- strings.Contains: sub occurs as a contiguous substring of s. -/
def strContains (s sub : String) : Bool :=
  s.toList.tails.any (fun t => sub.toList.isPrefixOf t)

/-- strings.HasPrefix. -/
def goHasPrefix (s pre : String) : Bool :=
  pre.toList.isPrefixOf s.toList

/-- unicode.IsSpace restricted to the Latin-1 range (the only code
points this program's inputs contain): space, tab, newline, vertical
tab, form feed, carriage return, NEL, NBSP. -/
def goIsSpace (c : Char) : Bool :=
  c = ' ' || c = '\t' || c = '\n' || c.toNat = 11 || c.toNat = 12 ||
  c = '\r' || c.toNat = 133 || c.toNat = 160

/-- Split a character list at every character satisfying p; the
separators are consumed and empty pieces are kept. -/
def splitOnPred (p : Char → Bool) : List Char → List (List Char)
  | [] => [[]]
  | x :: xs =>
    let r := splitOnPred p xs
    if p x then [] :: r
    else
      match r with
      | h :: t => (x :: h) :: t
      | [] => [[x]]

/-- strings.Fields: split around runs of whitespace, dropping empties. -/
def goFields (s : String) : List String :=
  ((splitOnPred goIsSpace s.toList).map String.mk).filter (fun t => t ≠ "")

/-- bufio.ScanLines drops one trailing carriage return from a line. -/
def dropTrailingCR (l : List Char) : List Char :=
  match l.getLast? with
  | some c => if c = '\r' then l.dropLast else l
  | none => l

/-- The sequence of lines a bufio.Scanner with ScanLines yields on the
given content: split at newlines; a trailing newline does not produce a
final empty token; each line has a single trailing CR stripped. -/
def scanLines (content : String) : List String :=
  let parts := splitOnPred (fun c => c = '\n') content.toList
  ((match parts.getLast? with
    | some [] => parts.dropLast
    | _ => parts).map dropTrailingCR).map String.mk

/-! ### Result-code constants (src/main.go lines 24-31) -/

def StatusDNSLookupFailed : Int := -1
def StatusConnectionFailed : Int := -2
def StatusTimeout : Int := -3
def StatusRedirectLoop : Int := -4
def StatusAssertFailed : Int := -5
def StatusUnknown : Int := -999

/-! ### Error classifier (src/main.go getErrorStatus, lines 84-102)

A Go error value is embedded as the string its Error() method returns;
nil is none. -/

def getErrorStatus (err : Option String) : Int :=
  match err with
  | none => 0
  | some errStr =>
    if strContains errStr "no such host" then StatusDNSLookupFailed
    else if strContains errStr "connection refused" then StatusConnectionFailed
    else if strContains errStr "timeout" || strContains errStr "deadline exceeded" then
      StatusTimeout
    else if strContains errStr "stopped after" && strContains errStr "redirects" then
      StatusRedirectLoop
    else StatusUnknown

/-! ### Configuration data model (src/config.go lines 18-62)

Durations are Int nanoseconds; the startTime field (wall-clock state
used only by the log-path template) is omitted. -/

def goSecond : Int := 1000000000

structure TimeoutConfig where
  connect : Int
  read : Int
deriving DecidableEq

structure FollowRedirectsConfig where
  enabled : Bool
  maxCount : Int
deriving DecidableEq

structure StatusCodeAssert where
  values : List Int
  regex : String
deriving DecidableEq

structure BodyAssert where
  regex : String
deriving DecidableEq

structure AssertsConfig where
  statusCode : StatusCodeAssert
  body : BodyAssert
deriving DecidableEq

structure CookieConfig where
  key : String
  value : String
deriving DecidableEq

structure LogConfig where
  path : String
  format : String
deriving DecidableEq

structure Config where
  url : String
  interval : Int
  timeout : TimeoutConfig
  followRedirects : FollowRedirectsConfig
  asserts : AssertsConfig
  cookies : List CookieConfig
  cookieFile : String
  log : Option LogConfig
deriving DecidableEq

/-! ### Cookie-file parsing (src/config.go loadCookiesFromFile, lines 131-158)

The file is embedded as its content string (os.Open and scanner I/O
errors are not content-dependent; the parse itself is total, so the Go
function never reports an error for any content). -/

structure HttpCookie where
  name : String
  value : String
deriving DecidableEq

/-- The scanner loop of loadCookiesFromFile, over the list of lines:
skip comment lines and empty lines, skip lines with fewer than 7
whitespace-separated fields, otherwise take fields[5] as the cookie
name and fields[6] as its value. -/
def parseCookieLines : List String → List HttpCookie
  | [] => []
  | line :: rest =>
    if goHasPrefix line "#" || line = "" then parseCookieLines rest
    else if (goFields line).length < 7 then parseCookieLines rest
    else ⟨(goFields line).getD 5 "", (goFields line).getD 6 ""⟩ :: parseCookieLines rest

def loadCookiesFromFile (content : String) : List HttpCookie :=
  parseCookieLines (scanLines content)

/-! ### Cookie setup (src/config.go Config.SetupCookies, lines 99-129) -/

/-- The cookie list SetupCookies hands to jar.SetCookies: inline config
entries first, then (when a cookie file is configured) the file's
entries appended after them.  The file is embedded as its content. -/
def setupCookies (c : Config) (fileContent : String) : List HttpCookie :=
  let configCookies := c.cookies.map (fun cc => ⟨cc.key, cc.value⟩)
  let fileCookies := if c.cookieFile ≠ "" then loadCookiesFromFile fileContent else []
  configCookies ++ fileCookies

/-- net/http/cookiejar Jar.SetCookies on one origin: every cookie this
program builds carries only Name and Value, so all of them share the
origin's default domain and path and the jar keys them by name alone,
each entry overwriting any earlier entry with the same name.  The value
the jar ends up holding for a name is therefore the last one in the
slice passed to SetCookies. -/
def jarValue (cookies : List HttpCookie) (nm : String) : Option String :=
  ((cookies.filter (fun c => c.name = nm)).getLast?).map (fun c => c.value)

/-! ### Configuration loading (src/config.go LoadConfig, lines 64-97)

The YAML document is embedded as per-field presence: yaml.Unmarshal
into the pre-populated Config overwrites exactly the fields the
document provides and leaves the rest at the pre-set defaults. -/

structure YamlDoc where
  url : Option String := none
  interval : Option Int := none
  timeoutConnect : Option Int := none
  timeoutRead : Option Int := none
  followEnabled : Option Bool := none
  followMaxCount : Option Int := none
  statusValues : Option (List Int) := none
  statusRegex : Option String := none
  bodyRegex : Option String := none
  cookies : Option (List CookieConfig) := none
  cookieFile : Option String := none
  log : Option LogConfig := none
deriving DecidableEq

/-- The Config literal LoadConfig pre-populates before unmarshalling. -/
def defaultLoadedConfig : Config where
  url := ""
  interval := goSecond
  timeout := ⟨3 * goSecond, 7 * goSecond⟩
  followRedirects := ⟨true, 10⟩
  asserts := ⟨⟨[200], ""⟩, ⟨""⟩⟩
  cookies := []
  cookieFile := ""
  log := none

/-- yaml.Unmarshal of the document into an existing Config value. -/
def unmarshalInto (doc : YamlDoc) (c : Config) : Config where
  url := doc.url.getD c.url
  interval := doc.interval.getD c.interval
  timeout := ⟨doc.timeoutConnect.getD c.timeout.connect, doc.timeoutRead.getD c.timeout.read⟩
  followRedirects :=
    ⟨doc.followEnabled.getD c.followRedirects.enabled,
     doc.followMaxCount.getD c.followRedirects.maxCount⟩
  asserts :=
    ⟨⟨doc.statusValues.getD c.asserts.statusCode.values,
      doc.statusRegex.getD c.asserts.statusCode.regex⟩,
     ⟨doc.bodyRegex.getD c.asserts.body.regex⟩⟩
  cookies := doc.cookies.getD c.cookies
  cookieFile := doc.cookieFile.getD c.cookieFile
  log := doc.log.or c.log

def LoadConfig (doc : YamlDoc) : Except String Config :=
  let config := unmarshalInto doc defaultLoadedConfig
  if config.url = "" then Except.error "url is required" else Except.ok config

/-- The Config literal main builds when no config file is given, only a
URL argument (src/main.go lines 68-75); every field the literal does
not mention is the Go zero value. -/
def configFromArgs (u : String) : Config where
  url := u
  interval := goSecond
  timeout := ⟨3 * goSecond, 7 * goSecond⟩
  followRedirects := ⟨false, 0⟩
  asserts := ⟨⟨[], ""⟩, ⟨""⟩⟩
  cookies := []
  cookieFile := ""
  log := none

/-! ### Response validation (src/main.go validateResponse, lines 104-141)

The Go regexp package is embedded at its interface: compile either
fails (regexp.Compile returns an error for a malformed pattern) or
yields a matcher.  validateResponse uses MatchString on the decimal
form of the status code and Match on the body bytes; both are the
matcher applied to a string (the body is embedded as a string). -/

structure RegexEngine where
  compile : String → Option (String → Bool)

/-- An http.Response as validateResponse sees it: it reads only the
status code, but the header set is part of the value (runCheck prints
it in diagnostics). -/
structure HttpResponse where
  statusCode : Int
  header : List (String × List String)
deriving DecidableEq

/-- The distinct fmt.Errorf diagnostics validateResponse can return,
each carrying the observed values its message interpolates. -/
inductive ValidateError where
  | statusNotInValues (code : Int) (values : List Int)
  | invalidStatusRegex (pattern : String)
  | statusRegexMismatch (code : Int) (pattern : String)
  | invalidBodyRegex (pattern : String)
  | bodyRegexMismatch (pattern : String)
deriving DecidableEq

/-- First block of validateResponse: the acceptable-status-code set
(membership by exact integer equality, checked only when non-empty). -/
def checkStatusValues (config : Config) (code : Int) : Option ValidateError :=
  if config.asserts.statusCode.values ≠ [] ∧ code ∉ config.asserts.statusCode.values then
    some (.statusNotInValues code config.asserts.statusCode.values)
  else none

/-- Second block: the status-code regex axis, compiled on the spot. -/
def checkStatusRegex (eng : RegexEngine) (config : Config) (code : Int) : Option ValidateError :=
  if config.asserts.statusCode.regex ≠ "" then
    match eng.compile config.asserts.statusCode.regex with
    | none => some (.invalidStatusRegex config.asserts.statusCode.regex)
    | some m =>
      if m (toString code) = false then
        some (.statusRegexMismatch code config.asserts.statusCode.regex)
      else none
  else none

/-- Third block: the body regex axis. -/
def checkBodyRegex (eng : RegexEngine) (config : Config) (body : String) : Option ValidateError :=
  if config.asserts.body.regex ≠ "" then
    match eng.compile config.asserts.body.regex with
    | none => some (.invalidBodyRegex config.asserts.body.regex)
    | some m =>
      if m body = false then some (.bodyRegexMismatch config.asserts.body.regex)
      else none
  else none

/-- validateResponse: the three blocks in source order, returning the
first failure (Go early-returns) or none when all pass. -/
def validateResponse (eng : RegexEngine) (config : Config) (resp : HttpResponse)
    (body : String) : Option ValidateError :=
  match checkStatusValues config resp.statusCode with
  | some e => some e
  | none =>
    match checkStatusRegex eng config resp.statusCode with
    | some e => some e
    | none => checkBodyRegex eng config body

/-! ### Redirect policy and the client redirect loop
(src/main.go runCheck CheckRedirect closure, lines 162-170, together
with the net/http client loop that consults it) -/

/-- What the CheckRedirect closure decides when the client is about to
follow a redirect, given the number of requests already made (the
length of the via slice, which includes the initial request). -/
inductive RedirectDecision where
  | useLastResponse
  | stopWithError
  | follow
deriving DecidableEq

def checkRedirect (cfg : FollowRedirectsConfig) (numVia : Nat) : RedirectDecision :=
  if cfg.enabled = false then .useLastResponse
  else if (numVia : Int) ≥ cfg.maxCount then .stopWithError
  else .follow

/-- Go status codes the http.Client treats as followable redirects for
a GET request. -/
def isRedirectStatus (s : Int) : Bool :=
  s = 301 || s = 302 || s = 303 || s = 307 || s = 308

/-- One server response in a redirect chain: its status, and when it is
a redirect, the Location target (the URL the would-be next request
carries; it names the request in the error the client returns when
CheckRedirect stops the chain). -/
structure Resp where
  status : Int
  location : String := ""
deriving DecidableEq

/-- The url.Error the client returns when CheckRedirect fails: its
message is the Get verb, the failing request URL in quotes, and the
wrapped "stopped after %d redirects" text from the closure. -/
def redirectStopMessage (reqUrl : String) (maxCount : Int) : String :=
  "Get \"" ++ reqUrl ++ "\": stopped after " ++ toString maxCount ++ " redirects"

inductive DoResult where
  | response (status : Int)
  | redirectStopped (errMsg : String)
  | noResponse
deriving DecidableEq

/-- The net/http client loop driven by the CheckRedirect closure: the
list holds the response each successive request receives; numVia is the
number of requests made so far (1 when the first response arrives).  A
non-redirect response is returned to the caller; a redirect response is
followed, returned as-is (ErrUseLastResponse) or turned into the
stopped-after error according to the closure. -/
def clientDoAux (cfg : FollowRedirectsConfig) : List Resp → Nat → DoResult
  | [], _ => .noResponse
  | r :: rest, numVia =>
    if isRedirectStatus r.status then
      match checkRedirect cfg numVia with
      | .useLastResponse => .response r.status
      | .stopWithError => .redirectStopped (redirectStopMessage r.location cfg.maxCount)
      | .follow => clientDoAux cfg rest (numVia + 1)
    else .response r.status

def clientDo (cfg : FollowRedirectsConfig) (chain : List Resp) : DoResult :=
  clientDoAux cfg chain 1

/-- A redirect chain of length L: L redirect hops (status 302, all
pointing at loc) followed by one terminal response of status s. -/
def redirectChain (L : Nat) (loc : String) (s : Int) : List Resp :=
  List.replicate L ⟨302, loc⟩ ++ [⟨s, ""⟩]

/-! ### The per-tick pipeline (src/main.go runCheck, lines 184-234) -/

/-- What a tick emits: a ProbeResult with a result code (one standard
output line, plus one log line when a log sink is configured), or
nothing at all (the continue on a failed body read skips both). -/
inductive TickEmission where
  | emitted (statusCode : Int)
  | skipped
deriving DecidableEq

/-- The tick body after client.Do: on a transport error, classify and
emit its sentinel; on a response, the body read either fails (continue:
nothing is emitted, not even a log line) or yields the body, which is
validated: a validation error emits the assert-failed sentinel, success
emits the literal HTTP status. -/
def tickOutcome (eng : RegexEngine) (cfg : Config)
    (doRes : Except String (HttpResponse × Except String String)) : TickEmission :=
  match doRes with
  | .error msg => .emitted (getErrorStatus (some msg))
  | .ok (_resp, .error _) => .skipped
  | .ok (resp, .ok body) =>
    match validateResponse eng cfg resp body with
    | some _ => .emitted StatusAssertFailed
    | none => .emitted resp.statusCode

/-- The emitted result code for a tick whose request traverses the
given redirect chain and whose body reads successfully: composes
clientDo, getErrorStatus and validateResponse exactly as runCheck does.
The terminal response is taken with an empty header set (validation
does not read headers). -/
def tickStatusChain (eng : RegexEngine) (cfg : Config) (chain : List Resp)
    (body : String) : Option Int :=
  match clientDo cfg.followRedirects chain with
  | .noResponse => none
  | .redirectStopped msg => some (getErrorStatus (some msg))
  | .response s =>
    match validateResponse eng cfg ⟨s, []⟩ body with
    | some _ => some StatusAssertFailed
    | none => some s

/-- A regex engine for contexts where no pattern is configured (every
pattern fails to compile; validateResponse never consults it when both
regex fields are empty). -/
def noCompileEngine : RegexEngine := ⟨fun _ => none⟩

/-- A simple total engine: every pattern compiles, to a
substring-containment matcher. -/
def substrEngine : RegexEngine := ⟨fun pat => some (fun s => strContains s pat)⟩

/-! ### Shared lemmas -/

/-- With every assertion axis unset, validateResponse always passes. -/
theorem validateResponse_eq_none_of_unset (eng : RegexEngine) (cfg : Config)
    (resp : HttpResponse) (body : String)
    (hv : cfg.asserts.statusCode.values = [])
    (hr : cfg.asserts.statusCode.regex = "")
    (hb : cfg.asserts.body.regex = "") :
    validateResponse eng cfg resp body = none := by
  simp [validateResponse, checkStatusValues, checkStatusRegex, checkBodyRegex, hv, hr, hb]

/-- The client redirect loop on a chain of L redirect hops followed by
a terminal response, started with numVia requests already made: it
reaches the terminal response exactly when the hop budget is never hit,
that is when L = 0 or numVia + L ≤ maxCount. -/
theorem clientDoAux_redirectChain (M : Int) (loc : String) (s : Int)
    (hs : isRedirectStatus s = false) :
    ∀ (L v : Nat),
      clientDoAux ⟨true, M⟩ (redirectChain L loc s) v =
        if L = 0 ∨ (v : Int) + L ≤ M then .response s
        else .redirectStopped (redirectStopMessage loc M) := by
  intro L
  induction L with
  | zero =>
    intro v
    simp [redirectChain, clientDoAux, hs]
  | succ n ih =>
    intro v
    have h302 : isRedirectStatus 302 = true := by decide
    rw [redirectChain, List.replicate_succ, List.cons_append]
    by_cases hv : (v : Int) ≥ M
    · have hcr : checkRedirect ⟨true, M⟩ v = .stopWithError := by
        simp [checkRedirect, hv]
      have hneg : ¬ (n + 1 = 0 ∨ (v : Int) + ((n + 1 : Nat) : Int) ≤ M) := by
        omega
      simp only [clientDoAux, h302, if_true, hcr]
      rw [if_neg hneg]
    · have hcr : checkRedirect ⟨true, M⟩ v = .follow := by
        simp only [checkRedirect, if_neg (by simp : ¬ (true = false))]
        rw [if_neg hv]
      simp only [clientDoAux, h302, if_true, hcr]
      rw [show (List.replicate n (⟨302, loc⟩ : Resp) ++ [(⟨s, ""⟩ : Resp)])
            = redirectChain n loc s from rfl]
      rw [ih (v + 1)]
      by_cases hC : n + 1 = 0 ∨ (v : Int) + ((n + 1 : Nat) : Int) ≤ M
      · rw [if_pos hC, if_pos (by omega)]
      · rw [if_neg hC, if_neg (by omega)]

/-- A Config whose assertion axes are all unset, isolating the redirect
behaviour of a probe. -/
def probeOnlyConfig (u : String) (en : Bool) (m : Int) : Config where
  url := u
  interval := goSecond
  timeout := ⟨3 * goSecond, 7 * goSecond⟩
  followRedirects := ⟨en, m⟩
  asserts := ⟨⟨[], ""⟩, ⟨""⟩⟩
  cookies := []
  cookieFile := ""
  log := none

/-! ### C1: redirect policy on a chain of length L with budget M -/

/-- C1 is refuted by the code: with redirects enabled and maxCount
M = 1, a redirect chain of length L = 1 (so L ≤ M) does not end in the
terminal status 200 as the claim requires, but in the redirect-loop
sentinel, because the hop counter the CheckRedirect closure compares
against maxCount is the length of the via slice, which already counts
the initial request. -/
theorem C1_redirect_budget_counterexample :
    tickStatusChain noCompileEngine (probeOnlyConfig "http://example.com/" true 1)
        (redirectChain 1 "http://example.com/next" 200) "" = some StatusRedirectLoop
    ∧ StatusRedirectLoop ≠ (200 : Int) := by
  exact ⟨by decide, by decide⟩

/-- C1 (amended): for every probe with redirects enabled and
maxCount M, a redirect chain of length L ends in the final terminal
HTTP status when L is strictly below M (or L = 0), and in the
redirect-loop sentinel when L ≥ M; with redirects disabled, the first
response, even a 3xx, is terminal with its literal status code.  The
side conditions say the terminal status is not itself a redirect and
the stopped-after error message classifies as a redirect loop (true
whenever the request URL does not contain one of the earlier substrings
the classifier checks first). -/
theorem C1_redirect_budget_amended (eng : RegexEngine) (u loc : String) (M : Int)
    (L : Nat) (s st : Int) (rest : List Resp) (body : String)
    (hs : isRedirectStatus s = false)
    (hcls : getErrorStatus (some (redirectStopMessage loc M)) = StatusRedirectLoop) :
    tickStatusChain eng (probeOnlyConfig u true M) (redirectChain L loc s) body
      = some (if L = 0 ∨ (L : Int) < M then s else StatusRedirectLoop)
    ∧ tickStatusChain eng (probeOnlyConfig u false M) (⟨st, loc⟩ :: rest) body = some st := by
  constructor
  · show (match clientDoAux ⟨true, M⟩ (redirectChain L loc s) 1 with
      | .noResponse => none
      | .redirectStopped msg => some (getErrorStatus (some msg))
      | .response c =>
        match validateResponse eng (probeOnlyConfig u true M) ⟨c, []⟩ body with
        | some _ => some StatusAssertFailed
        | none => some c) = _
    rw [clientDoAux_redirectChain M loc s hs L 1]
    by_cases hC : L = 0 ∨ (L : Int) < M
    · rw [if_pos (by omega), if_pos hC]
      simp [validateResponse_eq_none_of_unset eng (probeOnlyConfig u true M) ⟨s, []⟩ body
        rfl rfl rfl]
    · rw [if_neg (by omega), if_neg hC]
      simp [hcls]
  · show (match clientDoAux ⟨false, M⟩ (⟨st, loc⟩ :: rest) 1 with
      | .noResponse => none
      | .redirectStopped msg => some (getErrorStatus (some msg))
      | .response c =>
        match validateResponse eng (probeOnlyConfig u false M) ⟨c, []⟩ body with
        | some _ => some StatusAssertFailed
        | none => some c) = _
    have hterm : clientDoAux ⟨false, M⟩ (⟨st, loc⟩ :: rest) 1 = .response st := by
      by_cases h : isRedirectStatus st = true
      · simp [clientDoAux, h, checkRedirect]
      · simp [clientDoAux, h]
    rw [hterm]
    simp [validateResponse_eq_none_of_unset eng (probeOnlyConfig u false M) ⟨st, []⟩ body
      rfl rfl rfl]

/-- Witness for C1 (amended) at concrete inputs: budget 3, a chain of
two hops ending in 200 is followed to the end, and with redirects
disabled a 302 first response is terminal. -/
theorem C1_redirect_budget_amended_witness :
    (isRedirectStatus 200 = false
      ∧ getErrorStatus (some (redirectStopMessage "http://example.com/a" 3))
          = StatusRedirectLoop)
    ∧ tickStatusChain substrEngine (probeOnlyConfig "http://example.com/" true 3)
        (redirectChain 2 "http://example.com/a" 200) ""
        = some (if 2 = 0 ∨ (2 : Int) < 3 then 200 else StatusRedirectLoop)
    ∧ tickStatusChain substrEngine (probeOnlyConfig "http://example.com/" false 3)
        (⟨302, "http://example.com/a"⟩ :: []) "" = some 302 :=
  ⟨⟨by decide, by decide⟩,
    (C1_redirect_budget_amended substrEngine "http://example.com/" "http://example.com/a"
      3 2 200 302 [] "" (by decide) (by decide)).1,
    (C1_redirect_budget_amended substrEngine "http://example.com/" "http://example.com/a"
      3 2 200 302 [] "" (by decide) (by decide)).2⟩

/-! ### C2: merge order of inline config cookies and cookie-file cookies -/

/-- The jar value over an appended cookie slice: entries of the second
part win whenever the second part mentions the name at all. -/
theorem jarValue_append (a b : List HttpCookie) (nm : String) :
    jarValue (a ++ b) nm =
      if b.filter (fun c => c.name = nm) = [] then jarValue a nm else jarValue b nm := by
  unfold jarValue
  rw [List.filter_append]
  by_cases h : b.filter (fun c => decide (c.name = nm)) = []
  · rw [if_pos h, h, List.append_nil]
  · rw [if_neg h, List.getLast?_append_of_ne_nil _ h]

/-- A config carrying both an inline cookie named session and a cookie
file whose single data line also sets session. -/
def cookieMergeConfig : Config where
  url := "http://example.com/"
  interval := goSecond
  timeout := ⟨3 * goSecond, 7 * goSecond⟩
  followRedirects := ⟨false, 0⟩
  asserts := ⟨⟨[], ""⟩, ⟨""⟩⟩
  cookies := [⟨"session", "configvalue"⟩]
  cookieFile := "cookies.txt"
  log := none

def cookieMergeFileContent : String :=
  ".example.com\tTRUE\t/\tFALSE\t0\tsession\tfilevalue"

/-- C2 is refuted by the code: SetupCookies appends the inline config
entries first and the file entries after them, and the jar keeps the
last write, so for the name session present in both sources the jar
holds the file value, not the config value the claim requires. -/
theorem C2_cookie_merge_counterexample :
    jarValue (setupCookies cookieMergeConfig cookieMergeFileContent) "session"
        = some "filevalue"
    ∧ some "filevalue" ≠ some "configvalue" := by
  exact ⟨by decide, by decide⟩

/-- C2 (amended): the merged CookieSet applies file entries after
config entries, so for every cookie name that the cookie file mentions
at all, the file entry's value wins in the jar: the jar value equals
the value the file entries alone would give. -/
theorem C2_cookie_merge_amended (c : Config) (fileContent nm : String)
    (hfile : c.cookieFile ≠ "")
    (hmem : (loadCookiesFromFile fileContent).filter (fun k => k.name = nm) ≠ []) :
    jarValue (setupCookies c fileContent) nm
      = jarValue (loadCookiesFromFile fileContent) nm := by
  unfold setupCookies
  rw [if_pos hfile, jarValue_append, if_neg hmem]

/-- Witness for C2 (amended) at the concrete merge scenario. -/
theorem C2_cookie_merge_amended_witness :
    (cookieMergeConfig.cookieFile ≠ ""
      ∧ (loadCookiesFromFile cookieMergeFileContent).filter
          (fun k => k.name = "session") ≠ [])
    ∧ jarValue (setupCookies cookieMergeConfig cookieMergeFileContent) "session"
        = jarValue (loadCookiesFromFile cookieMergeFileContent) "session" :=
  ⟨⟨by decide, by decide⟩,
    C2_cookie_merge_amended cookieMergeConfig cookieMergeFileContent "session"
      (by decide) (by decide)⟩

/-! ### C3: malformed assertion patterns -/

/-- A YAML document with a URL and a status-code pattern that does not
compile (regexp.Compile rejects an unclosed character class). -/
def badRegexDoc : YamlDoc := { url := some "http://example.com/", statusRegex := some "[" }

/-- The Config badRegexDoc loads to. -/
def badRegexConfig : Config where
  url := "http://example.com/"
  interval := goSecond
  timeout := ⟨3 * goSecond, 7 * goSecond⟩
  followRedirects := ⟨true, 10⟩
  asserts := ⟨⟨[200], "["⟩, ⟨""⟩⟩
  cookies := []
  cookieFile := ""
  log := none

/-- C3 is refuted by the code: loading a configuration that carries a
malformed status-code pattern succeeds (nothing compiles patterns at
startup, so it is not fatal), and at tick time the tick carrying the
invalid pattern emits the very same assert-failed sentinel that an
ordinary assertion mismatch emits: it is folded into the per-tick
assertion-failure result. -/
theorem C3_malformed_pattern_counterexample :
    LoadConfig badRegexDoc = .ok badRegexConfig
    ∧ tickOutcome noCompileEngine badRegexConfig (.ok (⟨200, []⟩, .ok ""))
        = .emitted StatusAssertFailed
    ∧ tickOutcome noCompileEngine
        { badRegexConfig with asserts := ⟨⟨[200], ""⟩, ⟨""⟩⟩ }
        (.ok (⟨404, []⟩, .ok "")) = .emitted StatusAssertFailed := by
  exact ⟨rfl, by decide, by decide⟩

/-- C3 (amended): a malformed pattern is not checked at startup — the
loader stores it verbatim and succeeds — and is detected during
per-tick validation, where the axis fails with an invalid-pattern
diagnostic that is distinct from the mismatch diagnostic; the emitted
per-tick result, however, is the same assertion-failure sentinel as an
assertion mismatch, not a separate fatal configuration error. -/
theorem C3_malformed_pattern_amended (eng : RegexEngine) (doc : YamlDoc)
    (u p : String) (resp : HttpResponse) (body : String)
    (hurl : doc.url = some u) (hune : u ≠ "")
    (hdocp : doc.statusRegex = some p) (hpne : p ≠ "")
    (hcomp : eng.compile p = none)
    (hvals : checkStatusValues (unmarshalInto doc defaultLoadedConfig) resp.statusCode = none) :
    LoadConfig doc = .ok (unmarshalInto doc defaultLoadedConfig)
    ∧ validateResponse eng (unmarshalInto doc defaultLoadedConfig) resp body
        = some (.invalidStatusRegex p)
    ∧ (∀ code pat, (ValidateError.invalidStatusRegex p) ≠ .statusRegexMismatch code pat)
    ∧ tickOutcome eng (unmarshalInto doc defaultLoadedConfig) (.ok (resp, .ok body))
        = .emitted StatusAssertFailed := by
  have hregex : (unmarshalInto doc defaultLoadedConfig).asserts.statusCode.regex = p := by
    simp [unmarshalInto, hdocp]
  have hval : validateResponse eng (unmarshalInto doc defaultLoadedConfig) resp body
      = some (.invalidStatusRegex p) := by
    unfold validateResponse
    rw [hvals]
    unfold checkStatusRegex
    rw [hregex, if_pos hpne, hcomp]
  refine ⟨?_, hval, ?_, ?_⟩
  · unfold LoadConfig
    have hu : (unmarshalInto doc defaultLoadedConfig).url = u := by
      simp [unmarshalInto, hurl, defaultLoadedConfig]
    rw [if_neg (by rw [hu]; exact hune)]
  · intro code pat
    simp
  · simp [tickOutcome, hval]

/-- Witness for C3 (amended) at the concrete malformed pattern. -/
theorem C3_malformed_pattern_amended_witness :
    (badRegexDoc.url = some "http://example.com/"
      ∧ badRegexDoc.statusRegex = some "["
      ∧ noCompileEngine.compile "[" = none
      ∧ checkStatusValues (unmarshalInto badRegexDoc defaultLoadedConfig) 200 = none)
    ∧ LoadConfig badRegexDoc = .ok (unmarshalInto badRegexDoc defaultLoadedConfig)
    ∧ validateResponse noCompileEngine (unmarshalInto badRegexDoc defaultLoadedConfig)
        ⟨200, []⟩ "" = some (.invalidStatusRegex "[")
    ∧ tickOutcome noCompileEngine (unmarshalInto badRegexDoc defaultLoadedConfig)
        (.ok (⟨200, []⟩, .ok "")) = .emitted StatusAssertFailed :=
  have h := C3_malformed_pattern_amended noCompileEngine badRegexDoc
    "http://example.com/" "[" ⟨200, []⟩ "" rfl (by decide) rfl (by decide) rfl (by decide)
  ⟨⟨rfl, rfl, rfl, by decide⟩, h.1, h.2.1, h.2.2.2⟩

/-! ### C4: the three assertion axes -/

theorem checkStatusValues_eq_none_iff (cfg : Config) (code : Int) :
    checkStatusValues cfg code = none ↔
      (cfg.asserts.statusCode.values ≠ [] → code ∈ cfg.asserts.statusCode.values) := by
  unfold checkStatusValues
  by_cases h : cfg.asserts.statusCode.values ≠ [] ∧ code ∉ cfg.asserts.statusCode.values
  · rw [if_pos h]
    simp only [reduceCtorEq, false_iff]
    tauto
  · rw [if_neg h]
    simp only [true_iff]
    tauto

theorem checkStatusRegex_eq_none_iff (eng : RegexEngine) (cfg : Config) (code : Int)
    (ms : String → Bool)
    (hc : cfg.asserts.statusCode.regex ≠ "" →
      eng.compile cfg.asserts.statusCode.regex = some ms) :
    checkStatusRegex eng cfg code = none ↔
      (cfg.asserts.statusCode.regex ≠ "" → ms (toString code) = true) := by
  unfold checkStatusRegex
  by_cases h : cfg.asserts.statusCode.regex = ""
  · rw [if_neg (by simp [h])]
    simp [h]
  · rw [if_pos h, hc h]
    cases hm : ms (toString code)
    · simp [hm, h]
    · simp [hm, h]

theorem checkBodyRegex_eq_none_iff (eng : RegexEngine) (cfg : Config) (body : String)
    (mb : String → Bool)
    (hc : cfg.asserts.body.regex ≠ "" → eng.compile cfg.asserts.body.regex = some mb) :
    checkBodyRegex eng cfg body = none ↔
      (cfg.asserts.body.regex ≠ "" → mb body = true) := by
  unfold checkBodyRegex
  by_cases h : cfg.asserts.body.regex = ""
  · rw [if_neg (by simp [h])]
    simp [h]
  · rw [if_pos h, hc h]
    cases hm : mb body
    · simp [hm, h]
    · simp [hm, h]

theorem validateResponse_eq_none_iff (eng : RegexEngine) (cfg : Config)
    (resp : HttpResponse) (body : String) :
    validateResponse eng cfg resp body = none ↔
      checkStatusValues cfg resp.statusCode = none
      ∧ checkStatusRegex eng cfg resp.statusCode = none
      ∧ checkBodyRegex eng cfg body = none := by
  unfold validateResponse
  cases h1 : checkStatusValues cfg resp.statusCode <;>
    cases h2 : checkStatusRegex eng cfg resp.statusCode <;> simp

/-- C4: under a regex engine that compiles the configured patterns
(when set) to the matchers ms and mb, validation passes iff the status
is in the configured set when that set is non-empty, the decimal string
of the status matches the status pattern when set, and the body matches
the body pattern when set — unset axes are vacuously satisfied — and
the first failing axis yields the diagnostic naming that axis and the
observed value. -/
theorem C4_assertion_axes (eng : RegexEngine) (cfg : Config) (resp : HttpResponse)
    (body : String) (ms mb : String → Bool)
    (hcs : cfg.asserts.statusCode.regex ≠ "" →
      eng.compile cfg.asserts.statusCode.regex = some ms)
    (hcb : cfg.asserts.body.regex ≠ "" → eng.compile cfg.asserts.body.regex = some mb) :
    (validateResponse eng cfg resp body = none ↔
      ((cfg.asserts.statusCode.values ≠ [] →
          resp.statusCode ∈ cfg.asserts.statusCode.values)
        ∧ (cfg.asserts.statusCode.regex ≠ "" → ms (toString resp.statusCode) = true)
        ∧ (cfg.asserts.body.regex ≠ "" → mb body = true)))
    ∧ (cfg.asserts.statusCode.values ≠ [] →
        resp.statusCode ∉ cfg.asserts.statusCode.values →
        validateResponse eng cfg resp body
          = some (.statusNotInValues resp.statusCode cfg.asserts.statusCode.values))
    ∧ (checkStatusValues cfg resp.statusCode = none →
        cfg.asserts.statusCode.regex ≠ "" → ms (toString resp.statusCode) = false →
        validateResponse eng cfg resp body
          = some (.statusRegexMismatch resp.statusCode cfg.asserts.statusCode.regex))
    ∧ (checkStatusValues cfg resp.statusCode = none →
        checkStatusRegex eng cfg resp.statusCode = none →
        cfg.asserts.body.regex ≠ "" → mb body = false →
        validateResponse eng cfg resp body
          = some (.bodyRegexMismatch cfg.asserts.body.regex)) := by
  refine ⟨?_, ?_, ?_, ?_⟩
  · rw [validateResponse_eq_none_iff, checkStatusValues_eq_none_iff,
      checkStatusRegex_eq_none_iff eng cfg resp.statusCode ms hcs,
      checkBodyRegex_eq_none_iff eng cfg body mb hcb]
  · intro h1 h2
    have hsome : checkStatusValues cfg resp.statusCode
        = some (.statusNotInValues resp.statusCode cfg.asserts.statusCode.values) := by
      unfold checkStatusValues
      rw [if_pos ⟨h1, h2⟩]
    unfold validateResponse
    rw [hsome]
  · intro h1 hne hm
    have hsome : checkStatusRegex eng cfg resp.statusCode
        = some (.statusRegexMismatch resp.statusCode cfg.asserts.statusCode.regex) := by
      unfold checkStatusRegex
      rw [if_pos hne, hcs hne]
      simp [hm]
    unfold validateResponse
    rw [h1, hsome]
  · intro h1 h2 hne hm
    have hsome : checkBodyRegex eng cfg body
        = some (.bodyRegexMismatch cfg.asserts.body.regex) := by
      unfold checkBodyRegex
      rw [if_pos hne, hcb hne]
      simp [hm]
    unfold validateResponse
    rw [h1, h2, hsome]

/-- A config exercising all three axes at once. -/
def assertDemoConfig : Config where
  url := "http://example.com/"
  interval := goSecond
  timeout := ⟨3 * goSecond, 7 * goSecond⟩
  followRedirects := ⟨true, 10⟩
  asserts := ⟨⟨[200, 201], "2"⟩, ⟨"ok"⟩⟩
  cookies := []
  cookieFile := ""
  log := none

/-- Witness for C4 at concrete inputs: with the substring engine, a 200
response whose body contains ok passes all three configured axes. -/
theorem C4_assertion_axes_witness :
    validateResponse substrEngine assertDemoConfig ⟨200, []⟩ "all ok here" = none :=
  ((C4_assertion_axes substrEngine assertDemoConfig ⟨200, []⟩ "all ok here"
      (fun s => strContains s "2") (fun s => strContains s "ok")
      (fun _ => rfl) (fun _ => rfl)).1).mpr
    ⟨fun _ => by decide, fun _ => by decide, fun _ => by decide⟩

/-! ### C5: the transport-error classifier -/

/-- C5 is refuted by the code: the message stopped after 5 redirects
contains none of the three substrings the claim lists, so the claim
assigns it the unknown sentinel, but the classifier has a fourth branch
and returns the redirect-loop sentinel for it. -/
theorem C5_classifier_counterexample :
    strContains "stopped after 5 redirects" "no such host" = false
    ∧ strContains "stopped after 5 redirects" "connection refused" = false
    ∧ strContains "stopped after 5 redirects" "timeout" = false
    ∧ strContains "stopped after 5 redirects" "deadline exceeded" = false
    ∧ getErrorStatus (some "stopped after 5 redirects") = StatusRedirectLoop
    ∧ StatusRedirectLoop ≠ StatusUnknown := by
  exact ⟨by decide, by decide, by decide, by decide, by decide, by decide⟩

/-- C5 (amended): the classifier checks substrings in order — no such
host gives the DNS sentinel; otherwise connection refused gives the
connection sentinel; otherwise a timeout or deadline-exceeded message
gives the timeout sentinel; otherwise a message containing both stopped
after and redirects gives the redirect-loop sentinel; any remaining
message gives the unknown sentinel; a nil error gives the success
sentinel 0. -/
theorem C5_classifier_amended (s : String) :
    getErrorStatus none = 0
    ∧ (strContains s "no such host" = true →
        getErrorStatus (some s) = StatusDNSLookupFailed)
    ∧ (strContains s "no such host" = false →
        strContains s "connection refused" = true →
        getErrorStatus (some s) = StatusConnectionFailed)
    ∧ (strContains s "no such host" = false →
        strContains s "connection refused" = false →
        (strContains s "timeout" = true ∨ strContains s "deadline exceeded" = true) →
        getErrorStatus (some s) = StatusTimeout)
    ∧ (strContains s "no such host" = false →
        strContains s "connection refused" = false →
        strContains s "timeout" = false → strContains s "deadline exceeded" = false →
        strContains s "stopped after" = true → strContains s "redirects" = true →
        getErrorStatus (some s) = StatusRedirectLoop)
    ∧ (strContains s "no such host" = false →
        strContains s "connection refused" = false →
        strContains s "timeout" = false → strContains s "deadline exceeded" = false →
        (strContains s "stopped after" = false ∨ strContains s "redirects" = false) →
        getErrorStatus (some s) = StatusUnknown) := by
  refine ⟨rfl, ?_, ?_, ?_, ?_, ?_⟩
  · intro h1
    simp [getErrorStatus, h1]
  · intro h1 h2
    simp [getErrorStatus, h1, h2]
  · intro h1 h2 h3
    rcases h3 with h3 | h3 <;> simp [getErrorStatus, h1, h2, h3]
  · intro h1 h2 h3 h4 h5 h6
    simp [getErrorStatus, h1, h2, h3, h4, h5, h6]
  · intro h1 h2 h3 h4 h5
    rcases h5 with h5 | h5 <;> simp [getErrorStatus, h1, h2, h3, h4, h5]

/-- Witness for C5 (amended): the redirect-loop branch at a concrete
message. -/
theorem C5_classifier_amended_witness :
    strContains "stopped after 3 redirects" "stopped after" = true
    ∧ getErrorStatus (some "stopped after 3 redirects") = StatusRedirectLoop :=
  ⟨by decide,
    (C5_classifier_amended "stopped after 3 redirects").2.2.2.2.1
      (by decide) (by decide) (by decide) (by decide) (by decide) (by decide)⟩

/-! ### C6: cookie-file parsing -/

/-- A line the scanner loop turns into a cookie: not a comment, not
blank, and carrying at least 7 whitespace-separated fields. -/
def isDataLine (line : String) : Bool :=
  if goHasPrefix line "#" || line = "" then false
  else if (goFields line).length < 7 then false
  else true

theorem parseCookieLines_eq_filter_map (lines : List String) :
    parseCookieLines lines
      = (lines.filter isDataLine).map
          (fun line =>
            ⟨(goFields line).getD 5 "", (goFields line).getD 6 ""⟩) := by
  induction lines with
  | nil => rfl
  | cons l rest ih =>
    have hstep : parseCookieLines (l :: rest)
        = if (goHasPrefix l "#" || decide (l = "")) = true then parseCookieLines rest
          else if (goFields l).length < 7 then parseCookieLines rest
          else ⟨(goFields l).getD 5 "", (goFields l).getD 6 ""⟩ :: parseCookieLines rest := rfl
    rw [hstep, List.filter_cons]
    by_cases h1 : (goHasPrefix l "#" || decide (l = "")) = true
    · have hd : isDataLine l = false := by simp [isDataLine, h1]
      rw [if_pos h1, ih, hd]
      simp
    · rw [if_neg h1]
      by_cases h2 : (goFields l).length < 7
      · have hd : isDataLine l = false := by simp [isDataLine, h1, h2]
        rw [if_pos h2, ih, hd]
        simp
      · have hd : isDataLine l = true := by simp [isDataLine, h1, h2]
        rw [if_neg h2, ih, hd]
        simp

/-- C6: parsing a cookie file yields one cookie per data line (a line
that is not a comment, not blank, and has at least 7 fields), in order,
with the name taken from the 6th and the value from the 7th field
(1-indexed); comment lines, blank lines and malformed lines contribute
zero cookies, and no input can make the parse fail, since it is total
in the content. -/
theorem C6_cookie_file_parsing (content : String) :
    loadCookiesFromFile content
      = ((scanLines content).filter isDataLine).map
          (fun line =>
            ⟨(goFields line).getD 5 "", (goFields line).getD 6 ""⟩)
    ∧ (loadCookiesFromFile content).length
        = ((scanLines content).filter isDataLine).length := by
  refine ⟨parseCookieLines_eq_filter_map (scanLines content), ?_⟩
  rw [loadCookiesFromFile, parseCookieLines_eq_filter_map, List.length_map]

/-! ### C7: configuration defaults and explicit values -/

/-- C7: loading any document carrying a non-empty URL succeeds, and
every field of the result is the document's explicit value when
present, or the documented default when absent: interval one second,
connect timeout three seconds, read timeout seven seconds, redirects
enabled with max hop count 10, status-code assertion set containing
exactly 200, and empty or absent remaining fields. -/
theorem C7_load_defaults (doc : YamlDoc) (u : String)
    (hu : doc.url = some u) (hne : u ≠ "") :
    LoadConfig doc = .ok
      { url := u,
        interval := doc.interval.getD goSecond,
        timeout := ⟨doc.timeoutConnect.getD (3 * goSecond),
                    doc.timeoutRead.getD (7 * goSecond)⟩,
        followRedirects := ⟨doc.followEnabled.getD true, doc.followMaxCount.getD 10⟩,
        asserts := ⟨⟨doc.statusValues.getD [200], doc.statusRegex.getD ""⟩,
                    ⟨doc.bodyRegex.getD ""⟩⟩,
        cookies := doc.cookies.getD [],
        cookieFile := doc.cookieFile.getD "",
        log := doc.log } := by
  unfold LoadConfig unmarshalInto defaultLoadedConfig
  rw [hu]
  simp [hne, Option.or_none]

/-- Witness for C7: a document giving an explicit interval and cookie
list and leaving everything else absent. -/
theorem C7_load_defaults_witness :
    LoadConfig { url := some "http://example.com/",
                 interval := some (2 * goSecond),
                 cookies := some [⟨"session", "abc123"⟩] } = .ok
      { url := "http://example.com/",
        interval := 2 * goSecond,
        timeout := ⟨3 * goSecond, 7 * goSecond⟩,
        followRedirects := ⟨true, 10⟩,
        asserts := ⟨⟨[200], ""⟩, ⟨""⟩⟩,
        cookies := [⟨"session", "abc123"⟩],
        cookieFile := "",
        log := none } :=
  C7_load_defaults
    { url := some "http://example.com/", interval := some (2 * goSecond),
      cookies := some [⟨"session", "abc123"⟩] }
    "http://example.com/" rfl (by decide)

/-! ### C8: a failed body read emits nothing; other failures emit -/

/-- C8: a tick whose request succeeded but whose body read failed emits
no ProbeResult at all (the continue skips both the standard-output line
and the log write); a tick with a transport failure emits the
classified sentinel; a tick with a fully read body always emits — the
assertion-failure sentinel on a validation error, the literal HTTP
status on success. -/
theorem C8_body_read_skip (eng : RegexEngine) (cfg : Config) (resp : HttpResponse)
    (body msg e : String) :
    tickOutcome eng cfg (.ok (resp, .error e)) = .skipped
    ∧ tickOutcome eng cfg (.error msg) = .emitted (getErrorStatus (some msg))
    ∧ tickOutcome eng cfg (.ok (resp, .ok body)) ≠ .skipped
    ∧ (∀ err, validateResponse eng cfg resp body = some err →
        tickOutcome eng cfg (.ok (resp, .ok body)) = .emitted StatusAssertFailed)
    ∧ (validateResponse eng cfg resp body = none →
        tickOutcome eng cfg (.ok (resp, .ok body)) = .emitted resp.statusCode) := by
  refine ⟨rfl, rfl, ?_, ?_, ?_⟩
  · cases h : validateResponse eng cfg resp body <;> simp [tickOutcome, h]
  · intro err h
    simp [tickOutcome, h]
  · intro h
    simp [tickOutcome, h]

/-- Witness for C8 at concrete inputs: default-loaded config, a 200
response with an empty body; the read failure emits nothing, a timeout
emits the timeout sentinel, the validated response emits 200. -/
theorem C8_body_read_skip_witness :
    tickOutcome substrEngine defaultLoadedConfig
        (.ok (⟨200, []⟩, .error "unexpected EOF")) = .skipped
    ∧ tickOutcome substrEngine defaultLoadedConfig (.error "context deadline exceeded")
        = .emitted (getErrorStatus (some "context deadline exceeded"))
    ∧ tickOutcome substrEngine defaultLoadedConfig (.ok (⟨200, []⟩, .ok "")) ≠ .skipped
    ∧ tickOutcome substrEngine defaultLoadedConfig (.ok (⟨200, []⟩, .ok ""))
        = .emitted 200 :=
  have h := C8_body_read_skip substrEngine defaultLoadedConfig ⟨200, []⟩ ""
    "context deadline exceeded" "unexpected EOF"
  ⟨h.1, h.2.1, h.2.2.1, h.2.2.2.2 (by decide)⟩

/-! ### C9: the no-config-file path establishes no redirect or
assertion defaults -/

/-- C9: the configuration main builds from a bare URL argument leaves
redirect following disabled with max hop count 0 and the
acceptable-status set empty, so every response validates (any HTTP
status passes) and a first response that is a redirect is terminal with
its literal status code, unlike the configuration-file loading path,
whose defaults enable redirects with budget 10 and assert status 200. -/
theorem C9_args_config_defaults (u loc body : String) (eng : RegexEngine)
    (resp : HttpResponse) (st : Int) (rest : List Resp) :
    (configFromArgs u).followRedirects.enabled = false
    ∧ (configFromArgs u).followRedirects.maxCount = 0
    ∧ (configFromArgs u).asserts.statusCode.values = []
    ∧ validateResponse eng (configFromArgs u) resp body = none
    ∧ tickStatusChain eng (configFromArgs u) (⟨st, loc⟩ :: rest) body = some st
    ∧ defaultLoadedConfig.followRedirects = ⟨true, 10⟩
    ∧ defaultLoadedConfig.asserts.statusCode.values = [200] := by
  refine ⟨rfl, rfl, rfl, ?_, ?_, rfl, rfl⟩
  · exact validateResponse_eq_none_of_unset eng (configFromArgs u) resp body rfl rfl rfl
  · have hterm : clientDoAux ⟨false, 0⟩ (⟨st, loc⟩ :: rest) 1 = .response st := by
      by_cases h : isRedirectStatus st = true
      · simp [clientDoAux, h, checkRedirect]
      · simp [clientDoAux, h]
    show (match clientDoAux ⟨false, 0⟩ (⟨st, loc⟩ :: rest) 1 with
      | .noResponse => none
      | .redirectStopped m => some (getErrorStatus (some m))
      | .response c =>
        match validateResponse eng (configFromArgs u) ⟨c, []⟩ body with
        | some _ => some StatusAssertFailed
        | none => some c) = some st
    rw [hterm]
    simp [validateResponse_eq_none_of_unset eng (configFromArgs u) ⟨st, []⟩ body rfl rfl rfl]

/-! ### C10: validation is independent of response headers -/

/-- C10: validateResponse reads only the configured rules, the status
code and the body; two responses agreeing on the status code but with
arbitrarily different header sets validate identically under every
configuration and engine. -/
theorem C10_header_noninterference (eng : RegexEngine) (cfg : Config) (body : String)
    (r1 r2 : HttpResponse) (h : r1.statusCode = r2.statusCode) :
    validateResponse eng cfg r1 body = validateResponse eng cfg r2 body := by
  unfold validateResponse
  rw [h]

/-- Witness for C10: same status, disjoint header sets. -/
theorem C10_header_noninterference_witness :
    validateResponse substrEngine defaultLoadedConfig
        ⟨200, [("Content-Type", ["text/html"]), ("X-Debug", ["1"])]⟩ "b"
      = validateResponse substrEngine defaultLoadedConfig ⟨200, []⟩ "b" :=
  C10_header_noninterference substrEngine defaultLoadedConfig "b"
    ⟨200, [("Content-Type", ["text/html"]), ("X-Debug", ["1"])]⟩ ⟨200, []⟩ rfl

end Chechekule
